import Mathlib

/-!
# GrubHackPro: the Pong module and the single-actor template module

A shallow embedding of `examples/pong/pong.c` (`grub_cmd_pong`) and
`examples/template/module.c` (`grub_cmd_mygame`).

Conventions of the embedding.

* C `int` variables are modelled as `Int`.  Signed overflow is undefined in C
  and is not modelled: the theorems speak about the runs in which no `int`
  operation overflows.
* `info.width` and `info.height` (`unsigned int`) are natural numbers below
  `2^32`.  The casts `(int)info.width`, `(int)info.height` and every conversion
  of an `unsigned int` expression to an `int` variable or parameter are
  `int_of_unsigned`, the conversion modulo `2^32` (values from `2^31` on become
  negative); subtraction between `unsigned int` values is `unsigned_sub`.
* The host calls (`grub_video_fill_rect`, `grub_video_swap_buffers`,
  `grub_getkey_noblock`, `grub_getkey`, `grub_video_get_info`,
  `grub_video_set_mode`) are modelled by their results, supplied by a host
  record; the calls a frame issues are recorded in a trace of events.
* One iteration of `while (1)` is the function `frame`; the loop over a finite
  sequence of host behaviours is `loop`.  The busy-wait delay at the end of a
  Pong iteration changes no variable and is not modelled.
-/

/-- The type `grub_err_t` as far as the modules use it: `GRUB_ERR_NONE`, the one
code they name (`GRUB_ERR_BAD_DEVICE`) and any other code a host call returns. -/
inductive grub_err_t where
  | GRUB_ERR_NONE
  | GRUB_ERR_BAD_DEVICE
  | other (code : Nat)
  deriving DecidableEq, Repr

/-- The fields of `struct grub_video_mode_info` that the game loops read, both
`unsigned int`: natural numbers below `2^32`. -/
structure grub_video_mode_info where
  width : Nat
  height : Nat
  width_lt : width < 4294967296
  height_lt : height < 4294967296

/-- Conversion of an `unsigned int` value to `int` (a cast `(int)e`, or an
`unsigned int` expression assigned or passed to an `int`): the value itself
below `2^31`, and the value minus `2^32` from `2^31` on. -/
def int_of_unsigned (n : Nat) : Int :=
  if n < 2147483648 then (n : Int) else (n : Int) - 4294967296

/-- Subtraction `a - b` in `unsigned int` arithmetic: it wraps modulo `2^32`. -/
def unsigned_sub (a b : Nat) : Nat :=
  (a + 4294967296 - b) % 4294967296

/-- The 320x240 mode. -/
def mode320x240 : grub_video_mode_info := ⟨320, 240, by decide, by decide⟩

/-- The 640x480 mode. -/
def mode640x480 : grub_video_mode_info := ⟨640, 480, by decide, by decide⟩

/-- The 1024x768 mode. -/
def mode1024x768 : grub_video_mode_info := ⟨1024, 768, by decide, by decide⟩

/-- A mode whose width is the largest `unsigned int`, with height 240. -/
def modeWide : grub_video_mode_info := ⟨4294967295, 240, by decide, by decide⟩

/-- A mode whose height is the largest `unsigned int`, with width 320. -/
def modeTall : grub_video_mode_info := ⟨320, 4294967295, by decide, by decide⟩

/-- The key codes of `grub/term.h` used as `case` labels.  The header is not part
of the sources, so the codes are parameters.  The labels of one `switch` are
pairwise distinct (a C compiler rejects duplicate labels); the letters are the
ASCII codes `w`=119, `W`=87, `s`=115, `S`=83, `q`=113, `Q`=81. -/
structure TermKeys where
  GRUB_TERM_KEY_UP : Int
  GRUB_TERM_KEY_DOWN : Int
  GRUB_TERM_KEY_LEFT : Int
  GRUB_TERM_KEY_RIGHT : Int
  GRUB_TERM_ESC : Int
  pong_labels : [119, 87, 115, 83, GRUB_TERM_KEY_UP, GRUB_TERM_KEY_DOWN, 113, 81,
    GRUB_TERM_ESC].Nodup
  mygame_labels : [GRUB_TERM_KEY_LEFT, GRUB_TERM_KEY_RIGHT, GRUB_TERM_KEY_UP,
    GRUB_TERM_KEY_DOWN, 113, 81, GRUB_TERM_ESC].Nodup

/-- A concrete assignment of key codes (the values GRUB gives them: the extended
flag `0x800000` plus the scan code, and ASCII 27 for escape). -/
def sampleKeys : TermKeys where
  GRUB_TERM_KEY_UP := 0x800048
  GRUB_TERM_KEY_DOWN := 0x800050
  GRUB_TERM_KEY_LEFT := 0x80004b
  GRUB_TERM_KEY_RIGHT := 0x80004d
  GRUB_TERM_ESC := 27
  pong_labels := by decide
  mygame_labels := by decide

/-- The code used for a poll with no key pending (GRUB returns 0).  It is no
`case` label under `sampleKeys`, and every code that is no label behaves alike. -/
def noKey : Int := 0

/-- The results the host gives to the video set-up calls at the start of a
command. -/
structure VideoHost where
  get_info_first : Option grub_video_mode_info
  set_mode : grub_err_t
  get_info_second : Option grub_video_mode_info

/-- The video set-up shared by both commands (pong.c lines 57-72, module.c lines
49-62): use the active mode, else request `auto` and read the mode again. -/
def video_setup (host : VideoHost) : Except grub_err_t grub_video_mode_info :=
  match host.get_info_first with
  | some info => .ok info
  | none =>
    if host.set_mode ≠ .GRUB_ERR_NONE then .error host.set_mode
    else
      match host.get_info_second with
      | some info => .ok info
      | none => .error .GRUB_ERR_BAD_DEVICE

/-- What the host answers during one loop iteration: the result of the `n`-th
`grub_video_fill_rect` call of the iteration (counted from 0), the result of
`grub_video_swap_buffers`, and the key the poll returns. -/
structure FrameEnv where
  fill_rect : Nat → grub_err_t
  swap_buffers : grub_err_t
  getkey : Int

/-- A host iteration in which every call succeeds and the poll returns `key`. -/
def okEnv (key : Int) : FrameEnv where
  fill_rect := fun _ => .GRUB_ERR_NONE
  swap_buffers := .GRUB_ERR_NONE
  getkey := key

namespace Pong

/-- The mutable game variables of `grub_cmd_pong` (pong.c lines 45-50). -/
structure State where
  paddle1_y : Int
  paddle2_y : Int
  ball_x : Int
  ball_y : Int
  ball_dx : Int
  ball_dy : Int
  score1 : Int
  score2 : Int
  deriving DecidableEq, Repr

/-- The local `int paddle_height = 60` (never assigned again). -/
def paddle_height : Int := 60

/-- The local `int paddle_width = 10` (never assigned again). -/
def paddle_width : Int := 10

/-- The local `int ball_size = 8` (never assigned again). -/
def ball_size : Int := 8

/-- The initial values of the game variables (pong.c lines 45-50).  They are
set before the video mode is read and do not depend on it. -/
def initState : State where
  paddle1_y := 100
  paddle2_y := 100
  ball_x := 200
  ball_y := 150
  ball_dx := 3
  ball_dy := 2
  score1 := 0
  score2 := 0

/-- The three mapped colours (pong.c lines 78-80). -/
inductive Color where
  | bg_color
  | paddle_color
  | ball_color
  deriving DecidableEq, Repr

/-- The strings handed to `render_text`. -/
inductive Text where
  | score (score1 score2 : Int)
  | controls_left
  | controls_right
  | quit_hint
  deriving DecidableEq, Repr

/-- The places where the loop prints an error before returning it. -/
inductive ErrorSite where
  | clearing_screen
  | drawing_paddle1
  | drawing_paddle2
  | drawing_ball
  | swapping_buffers
  deriving DecidableEq, Repr

/-- The calls one iteration issues, in program order. -/
inductive Event where
  | fill_rect (color : Color) (x y w h : Int)
  | render_text (text : Text) (x y : Int) (color : Color)
  | swap_buffers
  | getkey_noblock
  | printf_error (site : ErrorSite)
  | printf_final_score (score1 score2 : Int)
  | printf_exiting
  deriving DecidableEq, Repr

/-- How an iteration ends: the loop goes on with the new variables, or the
command returns an error code (with the variables as they are at the `return`). -/
inductive Outcome where
  | running (s : State)
  | returned (err : grub_err_t) (s : State)
  deriving DecidableEq, Repr

/-- The game variables carried by an outcome. -/
def Outcome.state : Outcome → State
  | .running s => s
  | .returned _ s => s

/-- Update ball position (pong.c lines 127-128). -/
def integrate (s : State) : State :=
  { s with ball_x := s.ball_x + s.ball_dx, ball_y := s.ball_y + s.ball_dy }

/-- Ball collision with top/bottom walls (pong.c lines 131-133). -/
def wallBounce (info : grub_video_mode_info) (s : State) : State :=
  if s.ball_y ≤ 0 ∨ s.ball_y ≥ int_of_unsigned info.height - ball_size then
    { s with ball_dy := -s.ball_dy }
  else s

/-- The left-paddle test (pong.c lines 136-138). -/
def paddle1Collision (s : State) : State :=
  if s.ball_x ≤ 20 ∧ s.ball_y + ball_size ≥ s.paddle1_y
      ∧ s.ball_y ≤ s.paddle1_y + paddle_height then
    { s with ball_dx := -s.ball_dx }
  else s

/-- The right-paddle test (pong.c lines 139-141). -/
def paddle2Collision (info : grub_video_mode_info) (s : State) : State :=
  if s.ball_x ≥ int_of_unsigned info.width - 30 ∧ s.ball_y + ball_size ≥ s.paddle2_y
      ∧ s.ball_y ≤ s.paddle2_y + paddle_height then
    { s with ball_dx := -s.ball_dx }
  else s

/-- Ball collision with paddles, left then right (pong.c lines 136-141). -/
def paddleCollision (info : grub_video_mode_info) (s : State) : State :=
  paddle2Collision info (paddle1Collision s)

/-- The first scoring test, `if (ball_x < 0)` (pong.c lines 144-150).  The
quotients `info.width/2`, `info.height/2` are `unsigned int` values assigned to
`int` variables. -/
def scoreRight (info : grub_video_mode_info) (s : State) : State :=
  if s.ball_x < 0 then
    { s with score2 := s.score2 + 1,
             ball_x := int_of_unsigned (info.width / 2),
             ball_y := int_of_unsigned (info.height / 2),
             ball_dx := 3, ball_dy := 2 }
  else s

/-- The second scoring test, `if (ball_x > (int)info.width)` (pong.c lines
151-157).  It is a separate `if`, evaluated after the first one. -/
def scoreLeft (info : grub_video_mode_info) (s : State) : State :=
  if s.ball_x > int_of_unsigned info.width then
    { s with score1 := s.score1 + 1,
             ball_x := int_of_unsigned (info.width / 2),
             ball_y := int_of_unsigned (info.height / 2),
             ball_dx := -3, ball_dy := 2 }
  else s

/-- Ball out of bounds - scoring (pong.c lines 144-157). -/
def scoring (info : grub_video_mode_info) (s : State) : State :=
  scoreLeft info (scoreRight info s)

/-- The state after integration and collision handling, before the scoring
tests (pong.c lines 127-141). -/
def collide (info : grub_video_mode_info) (s : State) : State :=
  paddleCollision info (wallBounce info (integrate s))

/-- The physics update of one iteration (pong.c lines 127-157). -/
def physics (info : grub_video_mode_info) (s : State) : State :=
  scoring info (collide info s)

/-- Draw center line (pong.c lines 112-114): the `for` loop from `i`, with the
test `i < (int)info.height`, and `fuel` bounding the number of iterations.  The
result of each `grub_video_fill_rect` call is discarded by the source. -/
def centerLineFrom (info : grub_video_mode_info) : Nat → Nat → List Event
  | 0, _ => []
  | fuel + 1, i =>
    if (i : Int) < int_of_unsigned info.height then
      Event.fill_rect .paddle_color (int_of_unsigned (unsigned_sub (info.width / 2) 1))
          (i : Int) 2 10
        :: centerLineFrom info fuel (i + 20)
    else []

/-- The whole center line: `info.height` iterations always suffice. -/
def centerLine (info : grub_video_mode_info) : List Event :=
  centerLineFrom info info.height 0

/-- Score text and control instructions (pong.c lines 117-124). -/
def hud (info : grub_video_mode_info) (s : State) : List Event :=
  [ .render_text (.score s.score1 s.score2)
      (int_of_unsigned (unsigned_sub (info.width / 2) 50)) 30 .paddle_color,
    .render_text .controls_left 10 (int_of_unsigned (unsigned_sub info.height 60))
      .paddle_color,
    .render_text .controls_right (int_of_unsigned (unsigned_sub info.width 100))
      (int_of_unsigned (unsigned_sub info.height 60)) .paddle_color,
    .render_text .quit_hint (int_of_unsigned (unsigned_sub (info.width / 2) 30))
      (int_of_unsigned (unsigned_sub info.height 30)) .ball_color ]

/-- The `switch (key)` of the loop (pong.c lines 170-194). -/
def handleKey (K : TermKeys) (info : grub_video_mode_info) (s : State) (key : Int) :
    List Event × Outcome :=
  if key = 119 ∨ key = 87 then
    ([], .running (if s.paddle1_y > 0 then { s with paddle1_y := s.paddle1_y - 15 } else s))
  else if key = 115 ∨ key = 83 then
    ([], .running (if s.paddle1_y < int_of_unsigned info.height - paddle_height then
      { s with paddle1_y := s.paddle1_y + 15 } else s))
  else if key = K.GRUB_TERM_KEY_UP then
    ([], .running (if s.paddle2_y > 0 then { s with paddle2_y := s.paddle2_y - 15 } else s))
  else if key = K.GRUB_TERM_KEY_DOWN then
    ([], .running (if s.paddle2_y < int_of_unsigned info.height - paddle_height then
      { s with paddle2_y := s.paddle2_y + 15 } else s))
  else if key = 113 ∨ key = 81 then
    ([.printf_final_score s.score1 s.score2, .printf_exiting], .returned .GRUB_ERR_NONE s)
  else if key = K.GRUB_TERM_ESC then
    ([.printf_final_score s.score1 s.score2, .printf_exiting], .returned .GRUB_ERR_NONE s)
  else ([], .running s)

/-- The four rectangles whose result the loop checks (pong.c lines 85, 92, 98,
105): background, left paddle, right paddle, ball.  The last two arguments of
`fill_rect` are the `unsigned int` extent of the rectangle. -/
def checkedRects (info : grub_video_mode_info) (s : State) : List Event :=
  [ .fill_rect .bg_color 0 0 (info.width : Int) (info.height : Int),
    .fill_rect .paddle_color 10 s.paddle1_y paddle_width paddle_height,
    .fill_rect .paddle_color (int_of_unsigned (unsigned_sub info.width 20)) s.paddle2_y
      paddle_width paddle_height,
    .fill_rect .ball_color s.ball_x s.ball_y ball_size ball_size ]

/-- One iteration of the game loop (pong.c lines 83-200): the checked
rectangles, the center line, the text, the physics update, the buffer swap,
the key poll and the `switch`. -/
def frame (K : TermKeys) (info : grub_video_mode_info) (env : FrameEnv) (s : State) :
    List Event × Outcome :=
  if env.fill_rect 0 ≠ .GRUB_ERR_NONE then
    ((checkedRects info s).take 1 ++ [.printf_error .clearing_screen],
      .returned (env.fill_rect 0) s)
  else if env.fill_rect 1 ≠ .GRUB_ERR_NONE then
    ((checkedRects info s).take 2 ++ [.printf_error .drawing_paddle1],
      .returned (env.fill_rect 1) s)
  else if env.fill_rect 2 ≠ .GRUB_ERR_NONE then
    ((checkedRects info s).take 3 ++ [.printf_error .drawing_paddle2],
      .returned (env.fill_rect 2) s)
  else if env.fill_rect 3 ≠ .GRUB_ERR_NONE then
    (checkedRects info s ++ [.printf_error .drawing_ball],
      .returned (env.fill_rect 3) s)
  else
    let drawn := checkedRects info s ++ centerLine info ++ hud info s
    let s1 := physics info s
    if env.swap_buffers ≠ .GRUB_ERR_NONE then
      (drawn ++ [.swap_buffers, .printf_error .swapping_buffers],
        .returned env.swap_buffers s1)
    else
      (drawn ++ [.swap_buffers, .getkey_noblock] ++ (handleKey K info s1 env.getkey).1,
        (handleKey K info s1 env.getkey).2)

/-- The game loop over a finite sequence of host behaviours, one per iteration:
it stops at the first iteration that returns; when the sequence is used up the
loop is still running. -/
def loop (K : TermKeys) (info : grub_video_mode_info) : List FrameEnv → State →
    List Event × Outcome
  | [], s => ([], .running s)
  | env :: envs, s =>
    match (frame K info env s).2 with
    | .running s1 => ((frame K info env s).1 ++ (loop K info envs s1).1, (loop K info envs s1).2)
    | .returned err s1 => ((frame K info env s).1, .returned err s1)

/-- The command `pong` (pong.c lines 35-203) against a host: video set-up, then
the loop entered with the initial variables. -/
def grub_cmd_pong (K : TermKeys) (host : VideoHost) (envs : List FrameEnv) :
    List Event × Outcome :=
  match video_setup host with
  | .error err => ([], .returned err initState)
  | .ok info => loop K info envs initState

/-- The states the loop can be in between iterations or at its `return`,
starting from the initial variables. -/
inductive Reachable (K : TermKeys) (info : grub_video_mode_info) : State → Prop where
  | entry : Reachable K info initState
  | next (env : FrameEnv) (s : State) :
      Reachable K info s → Reachable K info (frame K info env s).2.state

/-- No wall bounce, paddle hit or scoring test fires in the physics update that
starts from `s`: each of the five tests of pong.c lines 131-157 is false on the
integrated state. -/
def noEvent (info : grub_video_mode_info) (s : State) : Bool :=
  decide (¬ ((integrate s).ball_y ≤ 0
        ∨ (integrate s).ball_y ≥ int_of_unsigned info.height - ball_size)
    ∧ ¬ ((integrate s).ball_x ≤ 20 ∧ (integrate s).ball_y + ball_size ≥ (integrate s).paddle1_y
          ∧ (integrate s).ball_y ≤ (integrate s).paddle1_y + paddle_height)
    ∧ ¬ ((integrate s).ball_x ≥ int_of_unsigned info.width - 30
          ∧ (integrate s).ball_y + ball_size ≥ (integrate s).paddle2_y
          ∧ (integrate s).ball_y ≤ (integrate s).paddle2_y + paddle_height)
    ∧ ¬ ((integrate s).ball_x < 0) ∧ ¬ ((integrate s).ball_x > int_of_unsigned info.width))

/-- The four checked rectangles of an iteration all succeed, so the iteration
reaches its physics update. -/
def reachesPhysics (env : FrameEnv) : Bool :=
  decide (env.fill_rect 0 = .GRUB_ERR_NONE ∧ env.fill_rect 1 = .GRUB_ERR_NONE
    ∧ env.fill_rect 2 = .GRUB_ERR_NONE ∧ env.fill_rect 3 = .GRUB_ERR_NONE)

/-- The number of physics updates the loop executes over `envs` from `s`: one in
every iteration that reaches it, until the loop returns or `envs` is used up. -/
def physicsSteps (K : TermKeys) (info : grub_video_mode_info) : List FrameEnv → State → Nat
  | [], _ => 0
  | env :: envs, s =>
    if reachesPhysics env then
      match (frame K info env s).2 with
      | .running s1 => 1 + physicsSteps K info envs s1
      | .returned _ _ => 1
    else 0

/-- Every physics update the loop executes over `envs` from `s` triggers no wall
bounce, paddle hit or scoring test. -/
def freeFlight (K : TermKeys) (info : grub_video_mode_info) : List FrameEnv → State → Bool
  | [], _ => true
  | env :: envs, s =>
    if reachesPhysics env then
      noEvent info s &&
        match (frame K info env s).2 with
        | .running s1 => freeFlight K info envs s1
        | .returned _ _ => true
    else true

end Pong

namespace MyGame

/-- The mutable variables of `grub_cmd_mygame`: the position of the rectangle
(module.c line 42). -/
structure State where
  x : Int
  y : Int
  deriving DecidableEq, Repr

/-- The starting position, `int x = 100, y = 100` (module.c line 42). -/
def initState : State where
  x := 100
  y := 100

/-- The two mapped colours (module.c lines 68-69). -/
inductive Color where
  | bg_color
  | rect_color
  deriving DecidableEq, Repr

/-- The strings handed to `render_text`. -/
inductive Text where
  | title
  | controls
  deriving DecidableEq, Repr

/-- The places where the loop prints an error before returning it. -/
inductive ErrorSite where
  | clearing_screen
  | drawing_rectangle
  | swapping_buffers
  deriving DecidableEq, Repr

/-- The calls one iteration issues, in program order. -/
inductive Event where
  | fill_rect (color : Color) (x y w h : Int)
  | render_text (text : Text) (x y : Int) (color : Color)
  | swap_buffers
  | getkey
  | printf_error (site : ErrorSite)
  | printf_exiting
  deriving DecidableEq, Repr

/-- How an iteration ends: the loop goes on, or the command returns. -/
inductive Outcome where
  | running (s : State)
  | returned (err : grub_err_t) (s : State)
  deriving DecidableEq, Repr

/-- The variables carried by an outcome. -/
def Outcome.state : Outcome → State
  | .running s => s
  | .returned _ s => s

/-- The `switch (key)` of the loop (module.c lines 101-121). -/
def handleKey (K : TermKeys) (info : grub_video_mode_info) (s : State) (key : Int) :
    List Event × Outcome :=
  if key = K.GRUB_TERM_KEY_LEFT then
    ([], .running (if s.x > 0 then { s with x := s.x - 10 } else s))
  else if key = K.GRUB_TERM_KEY_RIGHT then
    ([], .running (if s.x < int_of_unsigned info.width - 50 then { s with x := s.x + 10 }
      else s))
  else if key = K.GRUB_TERM_KEY_UP then
    ([], .running (if s.y > 0 then { s with y := s.y - 10 } else s))
  else if key = K.GRUB_TERM_KEY_DOWN then
    ([], .running (if s.y < int_of_unsigned info.height - 50 then { s with y := s.y + 10 }
      else s))
  else if key = 113 ∨ key = 81 then
    ([.printf_exiting], .returned .GRUB_ERR_NONE s)
  else if key = K.GRUB_TERM_ESC then
    ([.printf_exiting], .returned .GRUB_ERR_NONE s)
  else ([], .running s)

/-- The two rectangles of a frame (module.c lines 74 and 81). -/
def checkedRects (info : grub_video_mode_info) (s : State) : List Event :=
  [ .fill_rect .bg_color 0 0 (info.width : Int) (info.height : Int),
    .fill_rect .rect_color s.x s.y 50 50 ]

/-- Draw text (module.c lines 88-89). -/
def hud (info : grub_video_mode_info) : List Event :=
  [ .render_text .title 10 30 .rect_color,
    .render_text .controls 10 (int_of_unsigned (unsigned_sub info.height 30)) .rect_color ]

/-- One iteration of the game loop (module.c lines 72-122).  The key comes from
the blocking `grub_getkey`, so every iteration receives one. -/
def frame (K : TermKeys) (info : grub_video_mode_info) (env : FrameEnv) (s : State) :
    List Event × Outcome :=
  if env.fill_rect 0 ≠ .GRUB_ERR_NONE then
    ((checkedRects info s).take 1 ++ [.printf_error .clearing_screen],
      .returned (env.fill_rect 0) s)
  else if env.fill_rect 1 ≠ .GRUB_ERR_NONE then
    (checkedRects info s ++ [.printf_error .drawing_rectangle],
      .returned (env.fill_rect 1) s)
  else
    let drawn := checkedRects info s ++ hud info
    if env.swap_buffers ≠ .GRUB_ERR_NONE then
      (drawn ++ [.swap_buffers, .printf_error .swapping_buffers],
        .returned env.swap_buffers s)
    else
      (drawn ++ [.swap_buffers, .getkey] ++ (handleKey K info s env.getkey).1,
        (handleKey K info s env.getkey).2)

/-- The game loop over a finite sequence of host behaviours, one per iteration. -/
def loop (K : TermKeys) (info : grub_video_mode_info) : List FrameEnv → State →
    List Event × Outcome
  | [], s => ([], .running s)
  | env :: envs, s =>
    match (frame K info env s).2 with
    | .running s1 => ((frame K info env s).1 ++ (loop K info envs s1).1, (loop K info envs s1).2)
    | .returned err s1 => ((frame K info env s).1, .returned err s1)

/-- The command `mygame` (module.c lines 35-125) against a host. -/
def grub_cmd_mygame (K : TermKeys) (host : VideoHost) (envs : List FrameEnv) :
    List Event × Outcome :=
  match video_setup host with
  | .error err => ([], .returned err initState)
  | .ok info => loop K info envs initState

end MyGame

/-! ## Invariants and sample hosts used by the theorems -/

namespace Pong

/-- The vertical invariant of the ball: speed 2, position within one velocity
unit of `[0, height - ball_size]`, and moving inwards whenever it is outside.
On a mode whose height is `2^31` or more the cast `(int)info.height` is
negative, the wall test holds in every frame, and the ball alternates between
two positions inside the range. -/
def BallInv (info : grub_video_mode_info) (s : State) : Prop :=
  (s.ball_dy = 2 ∨ s.ball_dy = -2)
    ∧ -2 ≤ s.ball_y ∧ s.ball_y ≤ (info.height : Int) - ball_size + 2
    ∧ (s.ball_y < 0 → s.ball_dy = 2)
    ∧ (s.ball_y > (info.height : Int) - ball_size → s.ball_dy = -2)
    ∧ (2147483648 ≤ info.height →
        (s.ball_dy = 2 → 0 ≤ s.ball_y) ∧ (s.ball_dy = -2 → 2 ≤ s.ball_y))

/-- A host iteration in which the first center-line rectangle (the fifth
`grub_video_fill_rect` call of the frame) fails with code 1, every other call
succeeds and no key is pending. -/
def segmentFailEnv : FrameEnv where
  fill_rect := fun n => if n = 4 then .other 1 else .GRUB_ERR_NONE
  swap_buffers := .GRUB_ERR_NONE
  getkey := noKey

/-- The host of a 320x240 game in which the right paddle is moved down four
times and then left alone for 25 frames. -/
def approachEnvs : List FrameEnv :=
  List.replicate 4 (okEnv sampleKeys.GRUB_TERM_KEY_DOWN) ++ List.replicate 25 (okEnv noKey)

/-- A video host with an active 640x480 mode. -/
def vgaHost : VideoHost where
  get_info_first := some mode640x480
  set_mode := .GRUB_ERR_NONE
  get_info_second := none

end Pong

/-! ## Theorems -/

set_option maxRecDepth 100000

namespace Pong

/-- Below `2^31` the conversion to `int` keeps the value. -/
theorem int_of_unsigned_small (n : Nat) (h : n < 2147483648) : int_of_unsigned n = (n : Int) := by
  unfold int_of_unsigned
  rw [if_pos h]

/-- Half of an `unsigned int` value is below `2^31`, so its conversion to `int`
keeps the value. -/
theorem int_of_unsigned_half (n : Nat) (h : n < 4294967296) :
    int_of_unsigned (n / 2) = ((n / 2 : Nat) : Int) :=
  int_of_unsigned_small (n / 2) (by omega)

/-- The two regimes of the conversion to `int`. -/
theorem int_of_unsigned_cases (n : Nat) :
    (n < 2147483648 ∧ int_of_unsigned n = (n : Int))
      ∨ (2147483648 ≤ n ∧ int_of_unsigned n = (n : Int) - 4294967296) := by
  unfold int_of_unsigned
  split_ifs with h
  · exact Or.inl ⟨h, rfl⟩
  · exact Or.inr ⟨by omega, rfl⟩

/-- The wall test assigns to `ball_dy` only. -/
theorem wallBounce_frame (info : grub_video_mode_info) (s : State) :
    (wallBounce info s).paddle1_y = s.paddle1_y ∧ (wallBounce info s).paddle2_y = s.paddle2_y
      ∧ (wallBounce info s).ball_x = s.ball_x ∧ (wallBounce info s).ball_y = s.ball_y
      ∧ (wallBounce info s).ball_dx = s.ball_dx
      ∧ (wallBounce info s).score1 = s.score1 ∧ (wallBounce info s).score2 = s.score2 := by
  unfold wallBounce
  split_ifs <;> simp

/-- The left-paddle test assigns to `ball_dx` only. -/
theorem paddle1Collision_frame (s : State) :
    (paddle1Collision s).paddle1_y = s.paddle1_y ∧ (paddle1Collision s).paddle2_y = s.paddle2_y
      ∧ (paddle1Collision s).ball_x = s.ball_x ∧ (paddle1Collision s).ball_y = s.ball_y
      ∧ (paddle1Collision s).ball_dy = s.ball_dy
      ∧ (paddle1Collision s).score1 = s.score1 ∧ (paddle1Collision s).score2 = s.score2 := by
  unfold paddle1Collision
  split_ifs <;> simp

/-- The right-paddle test assigns to `ball_dx` only. -/
theorem paddle2Collision_frame (info : grub_video_mode_info) (s : State) :
    (paddle2Collision info s).paddle1_y = s.paddle1_y
      ∧ (paddle2Collision info s).paddle2_y = s.paddle2_y
      ∧ (paddle2Collision info s).ball_x = s.ball_x ∧ (paddle2Collision info s).ball_y = s.ball_y
      ∧ (paddle2Collision info s).ball_dy = s.ball_dy
      ∧ (paddle2Collision info s).score1 = s.score1
      ∧ (paddle2Collision info s).score2 = s.score2 := by
  unfold paddle2Collision
  split_ifs <;> simp

/-- Integration and collision handling leave the paddles and the scores alone and
move the ball by its old velocity. -/
theorem collide_frame (info : grub_video_mode_info) (s : State) :
    (collide info s).paddle1_y = s.paddle1_y ∧ (collide info s).paddle2_y = s.paddle2_y
      ∧ (collide info s).ball_x = s.ball_x + s.ball_dx
      ∧ (collide info s).ball_y = s.ball_y + s.ball_dy
      ∧ (collide info s).score1 = s.score1 ∧ (collide info s).score2 = s.score2 := by
  have h2 := paddle2Collision_frame info (paddle1Collision (wallBounce info (integrate s)))
  have h1 := paddle1Collision_frame (wallBounce info (integrate s))
  have hw := wallBounce_frame info (integrate s)
  obtain ⟨a1, a2, a3, a4, -, a6, a7⟩ := h2
  obtain ⟨b1, b2, b3, b4, -, b6, b7⟩ := h1
  obtain ⟨c1, c2, c3, c4, -, c6, c7⟩ := hw
  unfold collide paddleCollision
  rw [a1, a2, a3, a4, a6, a7, b1, b2, b3, b4, b6, b7, c1, c2, c3, c4, c6, c7]
  simp [integrate]

/-- The scoring tests never assign to the paddles. -/
theorem scoring_paddles (info : grub_video_mode_info) (s : State) :
    (scoring info s).paddle1_y = s.paddle1_y ∧ (scoring info s).paddle2_y = s.paddle2_y := by
  have hr : (scoreRight info s).paddle1_y = s.paddle1_y
      ∧ (scoreRight info s).paddle2_y = s.paddle2_y := by
    unfold scoreRight; split_ifs <;> simp
  have hl : (scoreLeft info (scoreRight info s)).paddle1_y = (scoreRight info s).paddle1_y
      ∧ (scoreLeft info (scoreRight info s)).paddle2_y = (scoreRight info s).paddle2_y := by
    unfold scoreLeft; split_ifs <;> simp
  unfold scoring
  exact ⟨hl.1.trans hr.1, hl.2.trans hr.2⟩

/-- The physics update never assigns to the paddles. -/
theorem physics_paddles (info : grub_video_mode_info) (s : State) :
    (physics info s).paddle1_y = s.paddle1_y ∧ (physics info s).paddle2_y = s.paddle2_y := by
  have hs := scoring_paddles info (collide info s)
  have hc := collide_frame info s
  unfold physics
  exact ⟨hs.1.trans hc.1, hs.2.trans hc.2.1⟩

/-- The `switch` never assigns to the ball or the scores. -/
theorem handleKey_ball (K : TermKeys) (info : grub_video_mode_info) (s : State) (key : Int) :
    (handleKey K info s key).2.state.ball_x = s.ball_x
      ∧ (handleKey K info s key).2.state.ball_y = s.ball_y
      ∧ (handleKey K info s key).2.state.ball_dx = s.ball_dx
      ∧ (handleKey K info s key).2.state.ball_dy = s.ball_dy
      ∧ (handleKey K info s key).2.state.score1 = s.score1
      ∧ (handleKey K info s key).2.state.score2 = s.score2 := by
  unfold handleKey
  split_ifs <;> simp [Outcome.state]

/-- The variables at the end of an iteration are the old ones (a checked
rectangle failed), the result of the physics update (the swap failed), or the
result of the physics update followed by the `switch`. -/
theorem frame_state_cases (K : TermKeys) (info : grub_video_mode_info) (env : FrameEnv)
    (s : State) :
    (frame K info env s).2.state = s
      ∨ (frame K info env s).2.state = physics info s
      ∨ (frame K info env s).2.state = (handleKey K info (physics info s) env.getkey).2.state := by
  unfold frame
  split_ifs <;> simp [Outcome.state]

/-- Invariant rule for the loop: a property of the initial variables that the
physics update and the `switch` preserve holds in every reachable state. -/
theorem Reachable.invariant {K : TermKeys} {info : grub_video_mode_info} (P : State → Prop)
    (h0 : P initState) (hphys : ∀ s, P s → P (physics info s))
    (hkey : ∀ s key, P s → P (handleKey K info s key).2.state) :
    ∀ s, Reachable K info s → P s := by
  intro s hs
  induction hs with
  | entry => exact h0
  | next env s _ ih =>
    rcases frame_state_cases K info env s with h | h | h
    · rw [h]; exact ih
    · rw [h]; exact hphys s ih
    · rw [h]; exact hkey _ _ (hphys s ih)

/-- Every state the loop function passes to its outcome is reachable. -/
theorem loop_reachable (K : TermKeys) (info : grub_video_mode_info) (envs : List FrameEnv) :
    ∀ s, Reachable K info s → Reachable K info (loop K info envs s).2.state := by
  induction envs with
  | nil => intro s hs; simpa [loop, Outcome.state] using hs
  | cons env envs ih =>
    intro s hs
    have hn := Reachable.next env s hs
    unfold loop
    cases hf : (frame K info env s).2 with
    | running s1 =>
      rw [hf] at hn
      simpa using ih s1 hn
    | returned err s1 =>
      rw [hf] at hn
      simpa [Outcome.state] using hn

/-- C1 at the failing input: on a 640x480 arena (height at least 160), seven
frames in which the poll returns `w` leave the left paddle at `y = -5`, below
0; and 22 frames in which the poll returns `s` leave it at `y = 430`, above
`height - paddle_height = 420`.  The guards of the `switch` compare with
exactly 0 and `height - paddle_height`, but before the 15-unit move. -/
theorem paddle_leaves_range :
    160 ≤ mode640x480.height
      ∧ (loop sampleKeys mode640x480 (List.replicate 7 (okEnv 119)) initState).2
          = .running ⟨-5, 100, 221, 164, 3, 2, 0, 0⟩
      ∧ ¬ (0 ≤ (loop sampleKeys mode640x480 (List.replicate 7 (okEnv 119))
            initState).2.state.paddle1_y)
      ∧ (loop sampleKeys mode640x480 (List.replicate 22 (okEnv 115))
            initState).2.state.paddle1_y = 430
      ∧ ¬ ((loop sampleKeys mode640x480 (List.replicate 22 (okEnv 115))
            initState).2.state.paddle1_y ≤ (mode640x480.height : Int) - paddle_height) := by
  refine ⟨by decide, by rfl, by decide, by rfl, by decide⟩

/-- On a mode of width below `2^31` the second scoring test cannot fire after the
first one has reset the ball: the reset position `width / 2` is not beyond
`width`. -/
theorem scoring_cases (info : grub_video_mode_info) (hw : info.width < 2147483648)
    (t : State) :
    (t.ball_x < 0 → scoring info t =
        { t with score2 := t.score2 + 1, ball_x := ((info.width / 2 : Nat) : Int),
                 ball_y := ((info.height / 2 : Nat) : Int), ball_dx := 3, ball_dy := 2 })
      ∧ (t.ball_x > (info.width : Int) → scoring info t =
        { t with score1 := t.score1 + 1, ball_x := ((info.width / 2 : Nat) : Int),
                 ball_y := ((info.height / 2 : Nat) : Int), ball_dx := -3, ball_dy := 2 })
      ∧ (¬ t.ball_x < 0 → ¬ t.ball_x > (info.width : Int) → scoring info t = t) := by
  have e1 := int_of_unsigned_small info.width hw
  have e2 := int_of_unsigned_half info.width info.width_lt
  have e3 := int_of_unsigned_half info.height info.height_lt
  have hle : ((info.width / 2 : Nat) : Int) ≤ (info.width : Int) := by
    exact_mod_cast Nat.div_le_self _ _
  refine ⟨fun h => ?_, fun h => ?_, fun h1 h2 => ?_⟩
  · have h2 : ¬ ((info.width / 2 : Nat) : Int) > (info.width : Int) := by omega
    unfold scoring scoreRight scoreLeft
    rw [e1, e2, e3, if_pos h, if_neg h2]
  · have h1 : ¬ t.ball_x < 0 := by omega
    unfold scoring scoreRight scoreLeft
    rw [e1, e2, e3, if_neg h1, if_pos h]
  · unfold scoring scoreRight scoreLeft
    rw [e1, if_neg h1, if_neg h2]

/-- C2 (amended): on every arena whose width is below `2^31` (so that the cast
`(int)info.width` keeps the width), with `t` the state after integration and
collision handling: if `t.ball_x < 0` then `score2` grows by exactly one,
`score1` is unchanged and the ball is reset to `(width/2, height/2)` with
velocity `(3, 2)` (so `dx` is positive); if `t.ball_x > width` then `score1`
grows by exactly one, `score2` is unchanged and the ball is reset to the centre
with velocity `(-3, 2)`; the two scores never both change in one update; and
when neither test holds both scores are unchanged. -/
theorem scoring_event (info : grub_video_mode_info) (hw : info.width < 2147483648)
    (s : State) :
    ((collide info s).ball_x < 0 →
        (physics info s).score2 = s.score2 + 1 ∧ (physics info s).score1 = s.score1
          ∧ (physics info s).ball_x = ((info.width / 2 : Nat) : Int)
          ∧ (physics info s).ball_y = ((info.height / 2 : Nat) : Int)
          ∧ (physics info s).ball_dx = 3 ∧ (physics info s).ball_dy = 2
          ∧ 0 < (physics info s).ball_dx)
      ∧ ((collide info s).ball_x > (info.width : Int) →
        (physics info s).score1 = s.score1 + 1 ∧ (physics info s).score2 = s.score2
          ∧ (physics info s).ball_x = ((info.width / 2 : Nat) : Int)
          ∧ (physics info s).ball_y = ((info.height / 2 : Nat) : Int)
          ∧ (physics info s).ball_dx = -3 ∧ (physics info s).ball_dy = 2)
      ∧ ¬ ((physics info s).score1 ≠ s.score1 ∧ (physics info s).score2 ≠ s.score2)
      ∧ (¬ (collide info s).ball_x < 0 → ¬ (collide info s).ball_x > (info.width : Int) →
        (physics info s).score1 = s.score1 ∧ (physics info s).score2 = s.score2) := by
  obtain ⟨hlt, hgt, hno⟩ := scoring_cases info hw (collide info s)
  obtain ⟨-, -, -, -, c1, c2⟩ := collide_frame info s
  have A : (collide info s).ball_x < 0 →
      (physics info s).score2 = s.score2 + 1 ∧ (physics info s).score1 = s.score1
        ∧ (physics info s).ball_x = ((info.width / 2 : Nat) : Int)
        ∧ (physics info s).ball_y = ((info.height / 2 : Nat) : Int)
        ∧ (physics info s).ball_dx = 3 ∧ (physics info s).ball_dy = 2
        ∧ 0 < (physics info s).ball_dx := by
    intro h
    unfold physics
    rw [hlt h]
    simp [c1, c2]
  have B : (collide info s).ball_x > (info.width : Int) →
      (physics info s).score1 = s.score1 + 1 ∧ (physics info s).score2 = s.score2
        ∧ (physics info s).ball_x = ((info.width / 2 : Nat) : Int)
        ∧ (physics info s).ball_y = ((info.height / 2 : Nat) : Int)
        ∧ (physics info s).ball_dx = -3 ∧ (physics info s).ball_dy = 2 := by
    intro h
    unfold physics
    rw [hgt h]
    simp [c1, c2]
  have C : ¬ (collide info s).ball_x < 0 → ¬ (collide info s).ball_x > (info.width : Int) →
      (physics info s).score1 = s.score1 ∧ (physics info s).score2 = s.score2 := by
    intro h1 h2
    unfold physics
    rw [hno h1 h2]
    exact ⟨c1, c2⟩
  refine ⟨A, B, ?_, C⟩
  rintro ⟨n1, n2⟩
  by_cases h1 : (collide info s).ball_x < 0
  · exact n1 (A h1).2.1
  · by_cases h2 : (collide info s).ball_x > (info.width : Int)
    · exact n2 (B h2).2.1
    · exact n1 (C h1 h2).1

/-- Witness of C2 (amended) on a 320x240 arena: the ball at `x = 2` moving left
crosses `x = 0`; the right score goes from 7 to 8, the left score stays 4, and
the ball restarts at `(160, 120)` with `dx = 3`. -/
theorem scoring_event_witness :
    mode320x240.width < 2147483648
      ∧ (collide mode320x240 ⟨200, 200, 2, 100, -3, 2, 4, 7⟩).ball_x < 0
      ∧ (physics mode320x240 ⟨200, 200, 2, 100, -3, 2, 4, 7⟩).score2 = 7 + 1
      ∧ (physics mode320x240 ⟨200, 200, 2, 100, -3, 2, 4, 7⟩).score1 = 4
      ∧ (physics mode320x240 ⟨200, 200, 2, 100, -3, 2, 4, 7⟩).ball_x = 160
      ∧ (physics mode320x240 ⟨200, 200, 2, 100, -3, 2, 4, 7⟩).ball_y = 120
      ∧ 0 < (physics mode320x240 ⟨200, 200, 2, 100, -3, 2, 4, 7⟩).ball_dx := by
  have h : (collide mode320x240 ⟨200, 200, 2, 100, -3, 2, 4, 7⟩).ball_x < 0 := by decide
  obtain ⟨a, b, c, d, -, -, g⟩ :=
    (scoring_event mode320x240 (by decide) ⟨200, 200, 2, 100, -3, 2, 4, 7⟩).1 h
  exact ⟨by decide, h, a, b, c, d, g⟩

/-- C2 as stated fails on an arena of width `4294967295`, where the cast
`(int)info.width` is `-1`: the ball at `x = 2` moving left crosses `x = 0`,
the first scoring test raises `score2` from 7 to 8 and resets the ball to
`x = 2147483647`, and then the second test `ball_x > (int)info.width` fires
too: `score1` goes from 4 to 5 and the ball leaves with `dx = -3`. -/
theorem scoring_event_counterexample :
    (collide modeWide ⟨200, 200, 2, 100, -3, 2, 4, 7⟩).ball_x < 0
      ∧ int_of_unsigned modeWide.width = -1
      ∧ physics modeWide ⟨200, 200, 2, 100, -3, 2, 4, 7⟩
          = ⟨200, 200, 2147483647, 120, -3, 2, 5, 8⟩
      ∧ (physics modeWide ⟨200, 200, 2, 100, -3, 2, 4, 7⟩).score1 ≠ 4
      ∧ (physics modeWide ⟨200, 200, 2, 100, -3, 2, 4, 7⟩).score2 ≠ 7
      ∧ (physics modeWide ⟨200, 200, 2, 100, -3, 2, 4, 7⟩).ball_dx ≠ 3 := by
  refine ⟨by decide, by rfl, by rfl, by decide, by decide, by decide⟩

/-- C4 (amended): on every arena whose height is below `2^31` (so that the cast
`(int)info.height` keeps the height), after integration the wall test negates
`ball_dy` exactly (keeping its magnitude) when `ball_y <= 0` or
`ball_y >= height - ball_size`, and otherwise leaves it alone; in both cases
`ball_dx` and the position are unchanged. -/
theorem wall_bounce (info : grub_video_mode_info) (hh : info.height < 2147483648)
    (s : State) :
    (((integrate s).ball_y ≤ 0 ∨ (integrate s).ball_y ≥ (info.height : Int) - ball_size) →
        (wallBounce info (integrate s)).ball_dy = -s.ball_dy
          ∧ |(wallBounce info (integrate s)).ball_dy| = |s.ball_dy|
          ∧ (wallBounce info (integrate s)).ball_dx = s.ball_dx)
      ∧ (¬ ((integrate s).ball_y ≤ 0 ∨ (integrate s).ball_y ≥ (info.height : Int) - ball_size) →
        (wallBounce info (integrate s)).ball_dy = s.ball_dy
          ∧ (wallBounce info (integrate s)).ball_dx = s.ball_dx)
      ∧ (wallBounce info (integrate s)).ball_x = s.ball_x + s.ball_dx
      ∧ (wallBounce info (integrate s)).ball_y = s.ball_y + s.ball_dy := by
  have e := int_of_unsigned_small info.height hh
  refine ⟨fun h => ?_, fun h => ?_, ?_, ?_⟩
  · unfold wallBounce
    rw [e, if_pos h]
    exact ⟨rfl, abs_neg _, rfl⟩
  · unfold wallBounce
    rw [e, if_neg h]
    exact ⟨rfl, rfl⟩
  · rw [(wallBounce_frame info (integrate s)).2.2.1]; rfl
  · rw [(wallBounce_frame info (integrate s)).2.2.2.1]; rfl

/-- Witness of C4 (amended) on a 320x240 arena: a ball that integration puts at
`y = 0` with `dy = -2` has `dy = 2` after the wall test, and `dx` is still `3`. -/
theorem wall_bounce_witness :
    mode320x240.height < 2147483648
      ∧ (integrate ⟨100, 100, 200, 2, 3, -2, 0, 0⟩).ball_y = 0
      ∧ (wallBounce mode320x240 (integrate ⟨100, 100, 200, 2, 3, -2, 0, 0⟩)).ball_dy = 2
      ∧ (wallBounce mode320x240 (integrate ⟨100, 100, 200, 2, 3, -2, 0, 0⟩)).ball_dx = 3 := by
  have h := (wall_bounce mode320x240 (by decide) ⟨100, 100, 200, 2, 3, -2, 0, 0⟩).1
    (Or.inl (by decide))
  exact ⟨by decide, by decide, h.1, h.2.2⟩

/-- C4 as stated fails on an arena of height `4294967295`, where the cast
`(int)info.height` is `-1`: from the initial state integration puts the ball at
`y = 152`, which is neither `<= 0` nor `>= height - ball_size`, yet the wall
test `ball_y >= (int)info.height - ball_size` holds and `ball_dy` is negated. -/
theorem wall_bounce_counterexample :
    (integrate initState).ball_y = 152
      ∧ ¬ ((integrate initState).ball_y ≤ 0
          ∨ (integrate initState).ball_y ≥ (modeTall.height : Int) - ball_size)
      ∧ int_of_unsigned modeTall.height = -1
      ∧ (integrate initState).ball_dy = 2
      ∧ (wallBounce modeTall (integrate initState)).ball_dy = -2 := by
  refine ⟨by rfl, by decide, by rfl, by rfl, by rfl⟩

/-- When no test fires, the physics update is the integration alone. -/
theorem physics_of_noEvent (info : grub_video_mode_info) (s : State)
    (h : noEvent info s = true) : physics info s = integrate s := by
  simp only [noEvent, decide_eq_true_eq] at h
  obtain ⟨h1, h2, h3, h4, h5⟩ := h
  have e1 : wallBounce info (integrate s) = integrate s := by
    unfold wallBounce; rw [if_neg h1]
  have e2 : paddle1Collision (integrate s) = integrate s := by
    unfold paddle1Collision; rw [if_neg h2]
  have e3 : paddle2Collision info (integrate s) = integrate s := by
    unfold paddle2Collision; rw [if_neg h3]
  have e4 : scoreRight info (integrate s) = integrate s := by
    unfold scoreRight; rw [if_neg h4]
  have e5 : scoreLeft info (integrate s) = integrate s := by
    unfold scoreLeft; rw [if_neg h5]
  unfold physics collide paddleCollision scoring
  rw [e1, e2, e3, e4, e5]

/-- An iteration that goes on has run the physics update and then the `switch`. -/
theorem frame_running (K : TermKeys) (info : grub_video_mode_info) (env : FrameEnv)
    (s s1 : State) (h : (frame K info env s).2 = .running s1) :
    (handleKey K info (physics info s) env.getkey).2 = .running s1 := by
  unfold frame at h
  split_ifs at h
  all_goals simp_all

/-- An iteration in which a checked rectangle fails returns with the variables
untouched. -/
theorem frame_not_reaching (K : TermKeys) (info : grub_video_mode_info) (env : FrameEnv)
    (s : State) (h : reachesPhysics env = false) :
    ∃ err, (frame K info env s).2 = .returned err s := by
  simp only [reachesPhysics, decide_eq_false_iff_not] at h
  unfold frame
  split_ifs with h0 h1 h2 h3
  · exact ⟨_, rfl⟩
  · exact ⟨_, rfl⟩
  · exact ⟨_, rfl⟩
  · exact ⟨_, rfl⟩
  all_goals exact absurd ⟨not_not.mp h0, not_not.mp h1, not_not.mp h2, not_not.mp h3⟩ h

/-- An iteration that reaches its physics update ends, however it ends, with the
ball and the scores that the physics update produced. -/
theorem frame_ball_of_reaches (K : TermKeys) (info : grub_video_mode_info) (env : FrameEnv)
    (s : State) (h : reachesPhysics env = true) :
    (frame K info env s).2.state.ball_x = (physics info s).ball_x
      ∧ (frame K info env s).2.state.ball_y = (physics info s).ball_y
      ∧ (frame K info env s).2.state.ball_dx = (physics info s).ball_dx
      ∧ (frame K info env s).2.state.ball_dy = (physics info s).ball_dy
      ∧ (frame K info env s).2.state.score1 = (physics info s).score1
      ∧ (frame K info env s).2.state.score2 = (physics info s).score2 := by
  simp only [reachesPhysics, decide_eq_true_eq] at h
  obtain ⟨h0, h1, h2, h3⟩ := h
  have hb := handleKey_ball K info (physics info s) env.getkey
  unfold frame
  rw [if_neg (not_not.mpr h0), if_neg (not_not.mpr h1), if_neg (not_not.mpr h2),
    if_neg (not_not.mpr h3)]
  simp only
  split_ifs
  · exact ⟨rfl, rfl, rfl, rfl, rfl, rfl⟩
  · exact hb

/-- When the loop is still running after `envs`, it has executed one physics
update per iteration. -/
theorem physicsSteps_of_running (K : TermKeys) (info : grub_video_mode_info)
    (envs : List FrameEnv) (s r : State) (h : (loop K info envs s).2 = .running r) :
    physicsSteps K info envs s = envs.length := by
  induction envs generalizing s with
  | nil => rfl
  | cons env envs ih =>
    unfold loop at h
    unfold physicsSteps
    cases hr : reachesPhysics env with
    | false =>
      obtain ⟨err, he⟩ := frame_not_reaching K info env s hr
      rw [he] at h
      exact absurd h (by simp)
    | true =>
      simp only [if_true]
      cases hf : (frame K info env s).2 with
      | returned err s1 =>
        rw [hf] at h
        exact absurd h (by simp)
      | running s1 =>
        rw [hf] at h
        simp only at h
        have e := ih s1 h
        simp only [List.length_cons]
        omega

/-- C5: for every run of the loop over `envs` from `s` and every `N`, if the loop
executes `N` physics updates (however the last iteration ends: going on,
quitting, or failing to swap), and none of them triggers a wall bounce, a
paddle hit or a scoring test, then after them the ball is at
`(x + N * dx, y + N * dy)` and its velocity and both scores are unchanged. -/
theorem free_flight (K : TermKeys) (info : grub_video_mode_info) (envs : List FrameEnv)
    (s : State) (N : Nat) (hN : physicsSteps K info envs s = N)
    (h : freeFlight K info envs s = true) :
    (loop K info envs s).2.state.ball_x = s.ball_x + (N : Int) * s.ball_dx
      ∧ (loop K info envs s).2.state.ball_y = s.ball_y + (N : Int) * s.ball_dy
      ∧ (loop K info envs s).2.state.ball_dx = s.ball_dx
      ∧ (loop K info envs s).2.state.ball_dy = s.ball_dy
      ∧ (loop K info envs s).2.state.score1 = s.score1
      ∧ (loop K info envs s).2.state.score2 = s.score2 := by
  induction envs generalizing s N with
  | nil =>
    unfold physicsSteps at hN
    subst hN
    simp [loop, Outcome.state]
  | cons env envs ih =>
    unfold physicsSteps at hN
    unfold freeFlight at h
    cases hr : reachesPhysics env with
    | false =>
      rw [hr] at hN
      simp only [Bool.false_eq_true, if_false] at hN
      subst hN
      obtain ⟨err, he⟩ := frame_not_reaching K info env s hr
      unfold loop
      rw [he]
      simp [Outcome.state]
    | true =>
      rw [hr] at hN h
      simp only [if_true, Bool.and_eq_true] at hN h
      obtain ⟨hne, hrest⟩ := h
      have hb := frame_ball_of_reaches K info env s hr
      rw [physics_of_noEvent info s hne] at hb
      simp only [integrate] at hb
      obtain ⟨bx, by_, bdx, bdy, b1, b2⟩ := hb
      cases hf : (frame K info env s).2 with
      | returned err s1 =>
        rw [hf] at hN bx by_ bdx bdy b1 b2
        simp only [Outcome.state] at bx by_ bdx bdy b1 b2
        subst hN
        unfold loop
        rw [hf]
        simp only [Outcome.state]
        refine ⟨?_, ?_, bdx, bdy, b1, b2⟩
        · rw [bx]; push_cast; ring
        · rw [by_]; push_cast; ring
      | running s1 =>
        rw [hf] at hN hrest bx by_ bdx bdy b1 b2
        simp only [Outcome.state] at bx by_ bdx bdy b1 b2
        subst hN
        obtain ⟨rx, ry, rdx, rdy, r1, r2⟩ := ih s1 _ rfl hrest
        unfold loop
        rw [hf]
        simp only
        refine ⟨?_, ?_, ?_, ?_, ?_, ?_⟩
        · rw [rx, bx, bdx]; push_cast; ring
        · rw [ry, by_, bdy]; push_cast; ring
        · rw [rdx, bdx]
        · rw [rdy, bdy]
        · rw [r1, b1]
        · rw [r2, b2]

/-- Witness of C5 on a 320x240 arena: from the ball at `(200, 150)` with velocity
`(3, 2)`, one iteration without collision puts it at `(203, 152)` with the same
velocity and scores. -/
theorem free_flight_witness :
    physicsSteps sampleKeys mode320x240 [okEnv noKey] initState = 1
      ∧ freeFlight sampleKeys mode320x240 [okEnv noKey] initState = true
      ∧ (loop sampleKeys mode320x240 [okEnv noKey] initState).2.state.ball_x
          = 200 + ((1 : Nat) : Int) * 3
      ∧ (loop sampleKeys mode320x240 [okEnv noKey] initState).2.state.ball_y
          = 150 + ((1 : Nat) : Int) * 2
      ∧ (loop sampleKeys mode320x240 [okEnv noKey] initState).2.state.ball_dx = 3
      ∧ (loop sampleKeys mode320x240 [okEnv noKey] initState).2.state.ball_dy = 2
      ∧ (loop sampleKeys mode320x240 [okEnv noKey] initState).2.state.score1 = 0
      ∧ (loop sampleKeys mode320x240 [okEnv noKey] initState).2.state.score2 = 0 :=
  ⟨by decide, by decide,
    free_flight sampleKeys mode320x240 [okEnv noKey] initState 1 (by decide) (by decide)⟩

/-- The vertical velocity after integration and collision handling. -/
theorem collide_ball_dy (info : grub_video_mode_info) (s : State) :
    (collide info s).ball_dy =
      if s.ball_y + s.ball_dy ≤ 0
          ∨ s.ball_y + s.ball_dy ≥ int_of_unsigned info.height - ball_size
      then -s.ball_dy else s.ball_dy := by
  have h2 := (paddle2Collision_frame info
    (paddle1Collision (wallBounce info (integrate s)))).2.2.2.2.1
  have h1 := (paddle1Collision_frame (wallBounce info (integrate s))).2.2.2.2.1
  unfold collide paddleCollision
  rw [h2, h1]
  unfold wallBounce
  simp only [integrate]
  split_ifs <;> rfl

/-- The scoring tests either reset the ball to `height / 2` with `dy = 2`, or
leave its vertical position and velocity alone (on every mode). -/
theorem scoring_vertical (info : grub_video_mode_info) (t : State) :
    ((scoring info t).ball_y = ((info.height / 2 : Nat) : Int) ∧ (scoring info t).ball_dy = 2)
      ∨ ((scoring info t).ball_y = t.ball_y ∧ (scoring info t).ball_dy = t.ball_dy) := by
  have e3 := int_of_unsigned_half info.height info.height_lt
  have hr : ((scoreRight info t).ball_y = ((info.height / 2 : Nat) : Int)
        ∧ (scoreRight info t).ball_dy = 2)
      ∨ ((scoreRight info t).ball_y = t.ball_y ∧ (scoreRight info t).ball_dy = t.ball_dy) := by
    unfold scoreRight
    split_ifs
    · exact Or.inl ⟨e3, rfl⟩
    · exact Or.inr ⟨rfl, rfl⟩
  have hl : ∀ u : State, ((scoreLeft info u).ball_y = ((info.height / 2 : Nat) : Int)
        ∧ (scoreLeft info u).ball_dy = 2)
      ∨ ((scoreLeft info u).ball_y = u.ball_y ∧ (scoreLeft info u).ball_dy = u.ball_dy) := by
    intro u
    unfold scoreLeft
    split_ifs
    · exact Or.inl ⟨e3, rfl⟩
    · exact Or.inr ⟨rfl, rfl⟩
  unfold scoring
  rcases hl (scoreRight info t) with a | ⟨a1, a2⟩
  · exact Or.inl a
  · rcases hr with ⟨b1, b2⟩ | ⟨b1, b2⟩
    · exact Or.inl ⟨a1.trans b1, a2.trans b2⟩
    · exact Or.inr ⟨a1.trans b1, a2.trans b2⟩

/-- The physics update preserves the vertical invariant of the ball on arenas
of height at least 160. -/
theorem physics_ballInv (info : grub_video_mode_info) (hh : 160 ≤ info.height) (s : State)
    (h : BallInv info s) : BallInv info (physics info s) := by
  have hdiv : ((info.height / 2 : Nat) : Int) * 2 ≤ (info.height : Int)
      ∧ (info.height : Int) < ((info.height / 2 : Nat) : Int) * 2 + 2 := by
    constructor <;> omega
  have hh2 : (160 : Int) ≤ (info.height : Int) := by exact_mod_cast hh
  have hlt : (info.height : Int) < 4294967296 := by exact_mod_cast info.height_lt
  have hc := int_of_unsigned_cases info.height
  have hc2 : ((info.height : Int) < 2147483648
        ∧ int_of_unsigned info.height = (info.height : Int))
      ∨ ((2147483648 : Int) ≤ (info.height : Int)
        ∧ int_of_unsigned info.height = (info.height : Int) - 4294967296) := by
    rcases hc with ⟨a, b⟩ | ⟨a, b⟩
    · exact Or.inl ⟨by exact_mod_cast a, b⟩
    · exact Or.inr ⟨by exact_mod_cast a, b⟩
  have hregime : (2147483648 ≤ info.height) ↔ ((2147483648 : Int) ≤ (info.height : Int)) := by
    constructor <;> intro a <;> exact_mod_cast a
  unfold BallInv ball_size at *
  rw [hregime] at h ⊢
  obtain ⟨h1, h2, h3, h4, h5, h6⟩ := h
  rcases scoring_vertical info (collide info s) with ⟨ey, ed⟩ | ⟨ey, ed⟩
  · unfold physics
    rw [ey, ed]
    refine ⟨Or.inl rfl, by omega, by omega, fun _ => rfl, fun hcontra => ?_,
      fun _ => ⟨fun _ => by omega, fun hcontra => ?_⟩⟩
    · exfalso; omega
    · exfalso; omega
  · unfold physics
    rw [ey, ed, collide_ball_dy, (collide_frame info s).2.2.2.1]
    unfold ball_size
    split_ifs with hwall
    · refine ⟨by omega, by omega, by omega, fun _ => by omega, fun _ => by omega,
        fun hreg => ⟨fun _ => by omega, fun _ => by omega⟩⟩
    · refine ⟨by omega, by omega, by omega, fun _ => by omega, fun _ => by omega,
        fun hreg => ⟨fun _ => by omega, fun _ => by omega⟩⟩

/-- C10: for every arena of height at least 160 (any width, any keys, any host
behaviour) and every reachable state of the Pong loop, `|ball_dy| = 2` and
`-2 <= ball_y <= height - ball_size + 2`. -/
theorem bounded_vertical_overshoot (K : TermKeys) (info : grub_video_mode_info)
    (hh : 160 ≤ info.height) (s : State) (hs : Reachable K info s) :
    |s.ball_dy| = 2 ∧ -2 ≤ s.ball_y ∧ s.ball_y ≤ (info.height : Int) - ball_size + 2 := by
  have key : BallInv info s := by
    refine @Reachable.invariant K info (BallInv info) ?_ ?_ ?_ s hs
    · have hh2 : (160 : Int) ≤ (info.height : Int) := by exact_mod_cast hh
      refine ⟨Or.inl rfl, ?_, ?_, fun _ => rfl, fun hc => ?_, fun _ => ⟨fun _ => ?_, fun hc => ?_⟩⟩
      · show (-2 : Int) ≤ 150; omega
      · show (150 : Int) ≤ (info.height : Int) - 8 + 2; omega
      · exfalso
        have hc2 : (150 : Int) > (info.height : Int) - 8 := hc
        omega
      · show (0 : Int) ≤ 150; omega
      · exfalso
        have hc2 : (2 : Int) = -2 := hc
        omega
    · intro s h; exact physics_ballInv info hh s h
    · intro s key h
      obtain ⟨-, by_, -, bdy, -, -⟩ := handleKey_ball K info s key
      unfold BallInv at *
      rw [by_, bdy]; exact h
  obtain ⟨hdy, h1, h2, -, -, -⟩ := key
  refine ⟨?_, h1, h2⟩
  rcases hdy with e | e <;> rw [e] <;> rfl

/-- Witness of C10 on a 320x240 arena, 29 frames into a game. -/
theorem bounded_vertical_overshoot_witness :
    160 ≤ (240 : Nat)
      ∧ |(loop sampleKeys mode320x240 approachEnvs initState).2.state.ball_dy| = 2
      ∧ -2 ≤ (loop sampleKeys mode320x240 approachEnvs initState).2.state.ball_y
      ∧ (loop sampleKeys mode320x240 approachEnvs initState).2.state.ball_y
          ≤ ((240 : Nat) : Int) - ball_size + 2 :=
  ⟨by decide, bounded_vertical_overshoot sampleKeys mode320x240 (by decide) _
    (loop_reachable sampleKeys mode320x240 approachEnvs initState Reachable.entry)⟩

/-- On a quit key the `switch` reports the score and returns success without
touching any variable. -/
theorem handleKey_quit (K : TermKeys) (info : grub_video_mode_info) (s : State) (key : Int)
    (hk : key = 113 ∨ key = 81 ∨ key = K.GRUB_TERM_ESC) :
    handleKey K info s key
      = ([.printf_final_score s.score1 s.score2, .printf_exiting],
          .returned .GRUB_ERR_NONE s) := by
  have hl := K.pong_labels
  simp only [List.nodup_cons, List.mem_cons, List.not_mem_nil, or_false, not_or] at hl
  obtain ⟨⟨-, -, -, -, -, -, -, w⟩, ⟨-, -, -, -, -, -, x⟩, ⟨-, -, -, -, -, y⟩, ⟨-, -, -, -, z⟩,
    ⟨-, u1, u2, u3⟩, ⟨v1, v2, v3⟩, -⟩ := hl
  unfold handleKey
  rcases hk with rfl | rfl | rfl
  · clear w x y z u2 u3 v2 v3
    split_ifs <;> first | (exfalso; omega) | rfl
  · clear w x y z u1 u3 v1 v3
    split_ifs <;> first | (exfalso; omega) | rfl
  · clear u1 u2 v1 v2
    split_ifs <;> first | (exfalso; omega) | rfl

/-- C3 (amended): if every checked draw and the swap succeed and the key polled
in a frame is `q`, `Q` or escape, the loop returns success in that frame
without applying any paddle movement, but after that frame's physics update:
the variables at termination, and the final score that is reported, are those
of the rendered state advanced by one physics update. -/
theorem quit_after_physics (K : TermKeys) (info : grub_video_mode_info) (env : FrameEnv)
    (s : State) (hfill : ∀ i, i < 4 → env.fill_rect i = .GRUB_ERR_NONE)
    (hswap : env.swap_buffers = .GRUB_ERR_NONE)
    (hk : env.getkey = 113 ∨ env.getkey = 81 ∨ env.getkey = K.GRUB_TERM_ESC) :
    frame K info env s
        = (checkedRects info s ++ centerLine info ++ hud info s
            ++ [.swap_buffers, .getkey_noblock]
            ++ [.printf_final_score (physics info s).score1 (physics info s).score2,
                .printf_exiting],
          .returned .GRUB_ERR_NONE (physics info s))
      ∧ (physics info s).paddle1_y = s.paddle1_y
      ∧ (physics info s).paddle2_y = s.paddle2_y := by
  refine ⟨?_, physics_paddles info s⟩
  unfold frame
  rw [if_neg (not_not.mpr (hfill 0 (by decide))), if_neg (not_not.mpr (hfill 1 (by decide))),
    if_neg (not_not.mpr (hfill 2 (by decide))), if_neg (not_not.mpr (hfill 3 (by decide)))]
  simp only
  rw [if_neg (not_not.mpr hswap), handleKey_quit K info (physics info s) env.getkey hk]

/-- Witness of C3 (amended): `q` polled in the first frame of a 640x480 game. -/
theorem quit_after_physics_witness :
    (frame sampleKeys mode640x480 (okEnv 113) initState).2
        = .returned .GRUB_ERR_NONE (physics mode640x480 initState)
      ∧ physics mode640x480 initState = ⟨100, 100, 203, 152, 3, 2, 0, 0⟩ :=
  ⟨congrArg Prod.snd (quit_after_physics sampleKeys mode640x480 (okEnv 113) initState
      (fun _ _ => rfl) rfl (Or.inl rfl)).1, by decide⟩

/-- C3 as stated fails: with `q` polled in a frame, the state at termination is
not the rendered one.  In the first frame of a 640x480 game the ball has moved
from `(200, 150)` to `(203, 152)`; and from a state with the ball at `x = 1`
moving left, the frame renders the score `0 : 0` but the ball is reset and the
final score reported is `0 : 1`. -/
theorem quit_state_counterexample :
    (frame sampleKeys mode640x480 (okEnv 113) initState).2
        = .returned .GRUB_ERR_NONE ⟨100, 100, 203, 152, 3, 2, 0, 0⟩
      ∧ (frame sampleKeys mode640x480 (okEnv 113) initState).2.state ≠ initState
      ∧ (frame sampleKeys mode640x480 (okEnv 113) ⟨100, 100, 1, 150, -3, 2, 0, 0⟩).2
        = .returned .GRUB_ERR_NONE ⟨100, 100, 320, 240, 3, 2, 0, 1⟩
      ∧ Event.render_text (.score 0 0) 270 30 .paddle_color
          ∈ (frame sampleKeys mode640x480 (okEnv 113) ⟨100, 100, 1, 150, -3, 2, 0, 0⟩).1
      ∧ Event.printf_final_score 0 1
          ∈ (frame sampleKeys mode640x480 (okEnv 113) ⟨100, 100, 1, 150, -3, 2, 0, 0⟩).1 := by
  refine ⟨by rfl, by decide, by rfl, by decide, by decide⟩

/-- Failure of a checked rectangle is propagated at once: when the `i`-th of the
four checked `grub_video_fill_rect` calls is the first to fail, the iteration
returns its error with the variables untouched, and the trace ends with that
call followed by the error message. -/
theorem checked_rect_failure (K : TermKeys) (info : grub_video_mode_info) (env : FrameEnv)
    (s : State) (i : Nat) (hi : i < 4) (hfail : env.fill_rect i ≠ .GRUB_ERR_NONE)
    (hfirst : ∀ j, j < i → env.fill_rect j = .GRUB_ERR_NONE) :
    (frame K info env s).2 = .returned (env.fill_rect i) s
      ∧ ∃ site, (frame K info env s).1
          = (checkedRects info s).take (i + 1) ++ [.printf_error site] := by
  have h4 : i = 0 ∨ i = 1 ∨ i = 2 ∨ i = 3 := by omega
  unfold frame
  rcases h4 with rfl | rfl | rfl | rfl
  · rw [if_pos hfail]; exact ⟨rfl, _, rfl⟩
  · rw [if_neg (not_not.mpr (hfirst 0 (by decide))), if_pos hfail]; exact ⟨rfl, _, rfl⟩
  · rw [if_neg (not_not.mpr (hfirst 0 (by decide))),
      if_neg (not_not.mpr (hfirst 1 (by decide))), if_pos hfail]; exact ⟨rfl, _, rfl⟩
  · rw [if_neg (not_not.mpr (hfirst 0 (by decide))),
      if_neg (not_not.mpr (hfirst 1 (by decide))),
      if_neg (not_not.mpr (hfirst 2 (by decide))), if_pos hfail]; exact ⟨rfl, _, rfl⟩

/-- The results of the center-line rectangles are never consulted: an iteration
depends on the host only through the first four `grub_video_fill_rect`
results, the swap result and the key. -/
theorem center_line_results_unused (K : TermKeys) (info : grub_video_mode_info)
    (env env2 : FrameEnv) (s : State)
    (hfill : ∀ i, i < 4 → env.fill_rect i = env2.fill_rect i)
    (hswap : env.swap_buffers = env2.swap_buffers) (hkey : env.getkey = env2.getkey) :
    frame K info env s = frame K info env2 s := by
  unfold frame
  rw [hfill 0 (by decide), hfill 1 (by decide), hfill 2 (by decide), hfill 3 (by decide),
    hswap, hkey]

/-- C6 at the failing input: on a 320x240 arena, when the first center-line
rectangle (the fifth `grub_video_fill_rect` call of the frame) fails and the
four calls before it succeed, the iteration does not return: the remaining
eleven segments, the four texts, the buffer swap and the key poll are all
issued after the failing call, and the loop goes on with the updated state. -/
theorem center_line_failure_ignored :
    segmentFailEnv.fill_rect 4 = .other 1
      ∧ (segmentFailEnv.fill_rect 0 = .GRUB_ERR_NONE ∧ segmentFailEnv.fill_rect 1 = .GRUB_ERR_NONE
          ∧ segmentFailEnv.fill_rect 2 = .GRUB_ERR_NONE
          ∧ segmentFailEnv.fill_rect 3 = .GRUB_ERR_NONE)
      ∧ (frame sampleKeys mode320x240 segmentFailEnv initState).1.get? 4
          = some (.fill_rect .paddle_color 159 0 2 10)
      ∧ (frame sampleKeys mode320x240 segmentFailEnv initState).1.length = 22
      ∧ Event.fill_rect .paddle_color 159 220 2 10
          ∈ (frame sampleKeys mode320x240 segmentFailEnv initState).1.drop 5
      ∧ Event.render_text (.score 0 0) 110 30 .paddle_color
          ∈ (frame sampleKeys mode320x240 segmentFailEnv initState).1.drop 5
      ∧ Event.swap_buffers ∈ (frame sampleKeys mode320x240 segmentFailEnv initState).1.drop 5
      ∧ (frame sampleKeys mode320x240 segmentFailEnv initState).2
          = .running ⟨100, 100, 203, 152, 3, 2, 0, 0⟩ := by
  refine ⟨by rfl, ⟨by rfl, by rfl, by rfl, by rfl⟩, by rfl, by rfl, by decide, by decide,
    by decide, by rfl⟩

/-- C7 (amended): whenever the video set-up yields an arena, the loop is entered
with the fixed initial variables, whatever the arena: both paddles at `y = 100`,
the ball at `(200, 150)` with velocity `(3, 2)`, both scores 0. -/
theorem loop_entry_state (K : TermKeys) (host : VideoHost) (envs : List FrameEnv)
    (info : grub_video_mode_info) (h : video_setup host = .ok info) :
    grub_cmd_pong K host envs = loop K info envs ⟨100, 100, 200, 150, 3, 2, 0, 0⟩ := by
  unfold grub_cmd_pong
  rw [h]
  rfl

/-- Witness of C7 (amended) on a host with an active 640x480 mode. -/
theorem loop_entry_state_witness :
    video_setup vgaHost = .ok mode640x480
      ∧ grub_cmd_pong sampleKeys vgaHost [] = loop sampleKeys mode640x480 []
          ⟨100, 100, 200, 150, 3, 2, 0, 0⟩ :=
  ⟨rfl, loop_entry_state sampleKeys vgaHost [] mode640x480 rfl⟩

/-- C7 as stated fails: on a 640x480 arena the loop is entered with the paddles
at `y = 100`, not `(480 - 60) / 2 = 210`, and the ball at `(200, 150)`, not
`(320, 240)`. -/
theorem initial_state_counterexample :
    video_setup vgaHost = .ok mode640x480
      ∧ grub_cmd_pong sampleKeys vgaHost [] = ([], .running ⟨100, 100, 200, 150, 3, 2, 0, 0⟩)
      ∧ initState.paddle1_y ≠ (((480 : Nat) : Int) - paddle_height) / 2
      ∧ initState.paddle2_y ≠ (((480 : Nat) : Int) - paddle_height) / 2
      ∧ initState.ball_x ≠ ((640 / 2 : Nat) : Int)
      ∧ initState.ball_y ≠ ((480 / 2 : Nat) : Int) := by
  refine ⟨by rfl, by rfl, by decide, by decide, by decide, by decide⟩

/-- What the two paddle tests do: the left test fires on `ball_x <= 20`, the
right test on `ball_x >= (int)info.width - 30`, each together with the vertical
overlap; a test that fires negates `ball_dx` and changes nothing else. -/
theorem paddle_tests (info : grub_video_mode_info) (s : State) :
    ((s.ball_x ≤ 20 ∧ s.ball_y + ball_size ≥ s.paddle1_y
          ∧ s.ball_y ≤ s.paddle1_y + paddle_height) →
        paddle1Collision s = { s with ball_dx := -s.ball_dx })
      ∧ (¬ (s.ball_x ≤ 20 ∧ s.ball_y + ball_size ≥ s.paddle1_y
          ∧ s.ball_y ≤ s.paddle1_y + paddle_height) → paddle1Collision s = s)
      ∧ ((s.ball_x ≥ int_of_unsigned info.width - 30 ∧ s.ball_y + ball_size ≥ s.paddle2_y
          ∧ s.ball_y ≤ s.paddle2_y + paddle_height) →
        paddle2Collision info s = { s with ball_dx := -s.ball_dx })
      ∧ (¬ (s.ball_x ≥ int_of_unsigned info.width - 30 ∧ s.ball_y + ball_size ≥ s.paddle2_y
          ∧ s.ball_y ≤ s.paddle2_y + paddle_height) → paddle2Collision info s = s) := by
  refine ⟨fun h => ?_, fun h => ?_, fun h => ?_, fun h => ?_⟩
  · unfold paddle1Collision; rw [if_pos h]
  · unfold paddle1Collision; rw [if_neg h]
  · unfold paddle2Collision; rw [if_pos h]
  · unfold paddle2Collision; rw [if_neg h]

/-- C9 at the failing input: in a 320x240 game (right paddle drawn at
`x = 300..310`, moved down to `y = 160`), 29 frames after the start the ball is
at `(287, 208)` with velocity `(3, 2)`.  The next integration puts it at
`(290, 210)`: its right edge `290 + 8 = 298` has not reached the paddle face
`x = 300`, yet the right-paddle test fires and the physics update negates
`ball_dx`. -/
theorem right_paddle_hit_before_contact :
    (loop sampleKeys mode320x240 approachEnvs initState).2
        = .running ⟨100, 160, 287, 208, 3, 2, 0, 0⟩
      ∧ integrate ⟨100, 160, 287, 208, 3, 2, 0, 0⟩ = ⟨100, 160, 290, 210, 3, 2, 0, 0⟩
      ∧ ¬ ((290 : Int) + ball_size ≥ ((320 : Nat) : Int) - 20)
      ∧ (210 + ball_size ≥ (160 : Int) ∧ (210 : Int) ≤ 160 + paddle_height)
      ∧ paddle2Collision mode320x240 ⟨100, 160, 290, 210, 3, 2, 0, 0⟩
          = ⟨100, 160, 290, 210, -3, 2, 0, 0⟩
      ∧ physics mode320x240 ⟨100, 160, 287, 208, 3, 2, 0, 0⟩
          = ⟨100, 160, 290, 210, -3, 2, 0, 0⟩ := by
  refine ⟨by rfl, by rfl, by decide, by decide, by rfl, by rfl⟩

end Pong

namespace MyGame

/-- C8 at the failing input: on a 1024x768 arena (width and height at least
150), 62 frames in which the key is arrow-down leave the rectangle at
`y = 720`, beyond `height - 50 = 718`.  The guard of the `switch` compares with
exactly `height - 50`, but before the 10-unit move. -/
theorem actor_leaves_range :
    150 ≤ mode1024x768.width ∧ 150 ≤ mode1024x768.height
      ∧ (loop sampleKeys mode1024x768
          (List.replicate 62 (okEnv sampleKeys.GRUB_TERM_KEY_DOWN)) initState).2
        = .running ⟨100, 720⟩
      ∧ ¬ ((loop sampleKeys mode1024x768
          (List.replicate 62 (okEnv sampleKeys.GRUB_TERM_KEY_DOWN)) initState).2.state.y
        ≤ (mode1024x768.height : Int) - 50) := by
  refine ⟨by decide, by decide, by rfl, by decide⟩

end MyGame
